import Mathlib

/-!
Verification of the docking task execution orchestrator
(`use_cases/commands/execute_docking_task.py`), the docking domain entities
(`domain/entities/docking_job.py`) and the NeuroSnap result-parsing adapter
(`adapters/external/neurosnap_adapter.py`).

Python floats are modelled as exact rationals (`Rat`), Python dicts as
association lists, UUIDs as `Nat`, datetimes as `Nat` seconds since the start
of the execution.  Exceptions are modelled with `Except`; collaborator
(adapter/port) calls are modelled as explicit function parameters, so that one
run of the orchestrator is a pure function of the request and the collaborator
behaviour.
-/

/-- Job execution status enumeration (`docking_job.py`, `JobStatus`). -/
inductive JobStatus where
  | pending
  | running
  | completed
  | failed
  | canceled
  deriving DecidableEq, Repr

/-- One docking pose (`docking_job.py`, `DockingPose`).  `pose_data` is an
open string-keyed map, modelled as an association list. -/
structure DockingPose where
  rank : Nat
  affinity : Rat
  rmsd_lb : Option Rat := none
  rmsd_ub : Option Rat := none
  confidence_score : Option Rat := none
  pose_data : List (String × String) := []
  deriving DecidableEq, Repr

/-- Complete docking results (`docking_job.py`, `DockingResults`), before
`__post_init__` runs. -/
structure DockingResults where
  poses : List DockingPose
  best_pose : Option DockingPose := none
  execution_time : Option Rat := none
  engine_version : Option String := none
  parameters : List (String × String) := []
  metadata : List (String × String) := []
  deriving DecidableEq, Repr

/-- Python `min(poses, key=lambda p: p.affinity)`: the first pose with minimal
affinity (Python `min` keeps the earliest element on ties). -/
def minByAffinity (ps : List DockingPose) : Option DockingPose :=
  ps.foldl
    (fun acc p =>
      match acc with
      | none => some p
      | some q => if p.affinity < q.affinity then some p else some q)
    none

/-- `DockingResults.__post_init__`: `if self.poses and not self.best_pose:
self.best_pose = min(self.poses, key=lambda p: p.affinity)`.  A `DockingResults`
value as produced by the Python constructor is `post_init` applied to the raw
field values. -/
def DockingResults.post_init (r : DockingResults) : DockingResults :=
  if r.poses ≠ [] ∧ r.best_pose = none then
    { r with best_pose := minByAffinity r.poses }
  else r

/-- Molecular structure value object (`docking_job.py`, `MolecularStructure`). -/
structure MolecularStructure where
  name : String
  format : String
  data : String
  properties : List (String × String) := []
  deriving DecidableEq, Repr

/-! ## SDF pose extraction (`neurosnap_adapter.py`) -/

/-- Python whitespace, as used by `str.strip()` and by `\s` in `re` patterns
(ASCII fragment): space, tab, newline, carriage return, vertical tab, form
feed. -/
def pyIsSpace (c : Char) : Bool :=
  c == ' ' || c == '\t' || c == '\n' || c == '\r' || c == '\x0b' || c == '\x0c'

/-- Python `str.strip()` on a character list. -/
def pyStrip (cs : List Char) : List Char :=
  ((cs.dropWhile pyIsSpace).reverse.dropWhile pyIsSpace).reverse

/-- Python `str.strip()` on a string. -/
def pyStripS (s : String) : String :=
  ⟨pyStrip s.data⟩

/-- Case-insensitive character equality (`re.IGNORECASE`). -/
def charIEq (a b : Char) : Bool :=
  a.toLower == b.toLower

/-- Match a literal tag case-insensitively at the head of the input; on success
return the remaining input. -/
def matchLitCI : List Char → List Char → Option (List Char)
  | [], cs => some cs
  | _ :: _, [] => none
  | t :: ts, c :: cs => if charIEq t c then matchLitCI ts cs else none

/-- Match the regex fragment `[+-]?\d+\.?\d*` at the head of the input and
return the matched characters.  The character classes of consecutive pieces
are disjoint, so greedy maximal-munch matching is exactly the regex
semantics. -/
def matchNumber (cs : List Char) : Option (List Char) :=
  let signAndRest : List Char × List Char :=
    match cs with
    | c :: cs' => if c == '+' || c == '-' then ([c], cs') else ([], cs)
    | [] => ([], cs)
  let sign := signAndRest.1
  let rest1 := signAndRest.2
  let digits1 := rest1.takeWhile Char.isDigit
  let rest2 := rest1.dropWhile Char.isDigit
  if digits1.isEmpty then none
  else
    match rest2 with
    | '.' :: rest3 => some (sign ++ digits1 ++ '.' :: rest3.takeWhile Char.isDigit)
    | _ => some (sign ++ digits1)

/-- Match the full property pattern `>\s*<TAG>\s*([+-]?\d+\.?\d*)`
(`re.IGNORECASE`) at the head of the input, returning the captured number. -/
def matchTagAt (tag : List Char) (cs : List Char) : Option (List Char) :=
  match cs with
  | '>' :: rest =>
    match rest.dropWhile pyIsSpace with
    | '<' :: rest2 =>
      match matchLitCI tag rest2 with
      | some ('>' :: rest4) => matchNumber (rest4.dropWhile pyIsSpace)
      | _ => none
    | _ => none
  | _ => none

/-- `re.search`: leftmost occurrence of the property pattern in the block. -/
def searchTag (tag : List Char) : List Char → Option (List Char)
  | [] => none
  | c :: cs =>
    match matchTagAt tag (c :: cs) with
    | some num => some num
    | none => searchTag tag cs

/-- Digits to a natural number. -/
def digitsToNat (ds : List Char) : Nat :=
  ds.foldl (fun acc c => 10 * acc + (c.toNat - '0'.toNat)) 0

/-- Python `float()` applied to a string of the shape `[+-]?\d+\.?\d*`
(the only shape the regex capture can produce), as an exact rational. -/
def parseFloat (cs : List Char) : Option Rat :=
  let signAndRest : Rat × List Char :=
    match cs with
    | '+' :: cs' => (1, cs')
    | '-' :: cs' => (-1, cs')
    | _ => (1, cs)
  let sgn := signAndRest.1
  let rest1 := signAndRest.2
  let intDigits := rest1.takeWhile Char.isDigit
  let rest2 := rest1.dropWhile Char.isDigit
  if intDigits.isEmpty then none
  else
    match rest2 with
    | [] => some (sgn * (digitsToNat intDigits : Rat))
    | '.' :: rest3 =>
      if (rest3.dropWhile Char.isDigit).isEmpty then
        some (sgn * ((digitsToNat (rest3.takeWhile Char.isDigit) : Rat) /
          (10 : Rat) ^ (rest3.takeWhile Char.isDigit).length +
          (digitsToNat intDigits : Rat)))
      else none
    | _ => none

/-- The property patterns tried in order by `_extract_affinity_from_sdf`. -/
def property_patterns : List (List Char) :=
  ["AFFINITY".data, "BINDING_AFFINITY".data, "SCORE".data, "ENERGY".data]

/-- Inner loop of `_extract_affinity_from_sdf`: first pattern whose leftmost
match parses as a float wins (`float()` failure falls through to the next
pattern). -/
def extractGo : List (List Char) → List Char → Option Rat
  | [], _ => none
  | tag :: tags, cs =>
    match searchTag tag cs with
    | some num =>
      match parseFloat num with
      | some v => some v
      | none => extractGo tags cs
    | none => extractGo tags cs

/-- `NeuroSnapAdapter._extract_affinity_from_sdf`. -/
def extract_affinity_from_sdf (sdf_block : String) : Option Rat :=
  extractGo property_patterns sdf_block.data

/-- The pose built for one SDF record by `_parse_sdf_poses`. -/
def mkSdfPose (rank : Nat) (affinity : Rat) (block : String) : DockingPose :=
  { rank := rank, affinity := affinity,
    pose_data := [("sdf_block", pyStripS block)] }

/-- Loop of `_parse_sdf_poses`: blank records are skipped; a record with an
extractable affinity becomes one pose and advances the rank counter. -/
def parseSdfGo : List String → Nat → List DockingPose
  | [], _ => []
  | b :: bs, rank =>
    if (pyStrip b.data).isEmpty then parseSdfGo bs rank
    else
      match extract_affinity_from_sdf b with
      | some a => mkSdfPose rank a b :: parseSdfGo bs (rank + 1)
      | none => parseSdfGo bs rank

/-- `NeuroSnapAdapter._parse_sdf_poses`: split on the `$$$$` record delimiter,
then run the ranking loop starting at rank 1. -/
def parse_sdf_poses (sdf_content : String) : List DockingPose :=
  parseSdfGo (sdf_content.splitOn "$$$$") 1

/-- Poses with consecutive ranks starting at `r`, in list order. -/
def rankedFrom (r : Nat) : List (Rat × String) → List DockingPose
  | [] => []
  | (a, d) :: rest =>
    { rank := r, affinity := a, pose_data := [("sdf_block", d)] } ::
      rankedFrom (r + 1) rest

/-- The affinity hits of an SDF content: non-blank records with an extractable
affinity, each paired with its stripped record text, in record order. -/
def sdf_pose_hits (sdf_content : String) : List (Rat × String) :=
  ((sdf_content.splitOn "$$$$").filter (fun b => !(pyStrip b.data).isEmpty)).filterMap
    (fun b => (extract_affinity_from_sdf b).map (fun a => (a, pyStripS b)))

/-- Spec-shaped reformulation of SDF pose extraction: one pose per record with
a matching numeric property value, ranks assigned in discovery order starting
at 1. -/
def parse_sdf_poses_spec (sdf_content : String) : List DockingPose :=
  rankedFrom 1 (sdf_pose_hits sdf_content)

/-! ## Orchestrator data model (`execute_docking_task.py`) -/

/-- The use-case exception taxonomy.  The four orchestrator exceptions
(`DockingParameterValidationError`, `LigandPreparationError`,
`DockingSubmissionError`, `DockingExecutionTimeoutError`) carry a message, the
execution id and an optional job id, mirroring `DockingTaskExecutionError`.
`resultsError` models the domain `DockingResultsError` (message only) and
`cancellationError` the domain `DockingCancellationError`; `adapterError`
stands for any other exception escaping a collaborator call. -/
inductive DockingError where
  | parameterValidationError (message : String) (execution_id : Nat) (job_id : Option String)
  | ligandPreparationError (message : String) (execution_id : Nat) (job_id : Option String)
  | submissionError (message : String) (execution_id : Nat) (job_id : Option String)
  | executionTimeoutError (message : String) (execution_id : Nat) (job_id : Option String)
  | resultsError (message : String)
  | cancellationError (message : String)
  | adapterError (message : String)
  deriving DecidableEq, Repr

/-- Python `str(e)`: the exception's message. -/
def DockingError.message : DockingError → String
  | .parameterValidationError m _ _ => m
  | .ligandPreparationError m _ _ => m
  | .submissionError m _ _ => m
  | .executionTimeoutError m _ _ => m
  | .resultsError m => m
  | .cancellationError m => m
  | .adapterError m => m

/-- Whether a raised error is the domain `DockingResultsError`. -/
def DockingError.isResultsError : DockingError → Bool
  | .resultsError _ => true
  | _ => false

/-- A receptor/ligand input value: an already-typed structure, an untyped
string-keyed dict, or a plain string (drug name).  `Option MolInput` models the
`Union[...]`-typed field, with `none` for Python `None`. -/
inductive MolInput where
  | struct (s : MolecularStructure)
  | dict (d : List (String × String))
  | str (s : String)
  deriving DecidableEq, Repr

/-- Python truthiness of a receptor/ligand value: objects are truthy, dicts
and strings are truthy iff non-empty. -/
def MolInput.truthy : MolInput → Bool
  | .struct _ => true
  | .dict d => !d.isEmpty
  | .str s => !s.isEmpty

/-- Python truthiness of an optional receptor/ligand field (`None` is falsy). -/
def truthyOpt : Option MolInput → Bool
  | none => false
  | some m => m.truthy

/-- Python `f"{type(x)}"` for the shapes a ligand/receptor input can take. -/
def typeNameOf : Option MolInput → String
  | none => "<class 'NoneType'>"
  | some (.struct _) =>
    "<class 'molecular_analysis_dashboard.domain.entities.docking_job.MolecularStructure'>"
  | some (.dict _) => "<class 'dict'>"
  | some (.str _) => "<class 'str'>"

/-- `DockingTaskRequest` (defaults as in the dataclass). -/
structure DockingTaskRequest where
  receptor : Option MolInput
  ligand : Option MolInput
  binding_site : Option (List (String × Rat)) := none
  job_note : Option String := none
  max_poses : Int := 9
  energy_range : Rat := 3
  exhaustiveness : Int := 8
  timeout_minutes : Nat := 30
  retry_attempts : Nat := 3
  deriving DecidableEq, Repr

/-- `DockingTaskExecution` (defaults as in the dataclass).  UUIDs are `Nat`,
datetimes are seconds since the start of the execution. -/
structure DockingTaskExecution where
  execution_id : Nat
  job_id : Option String := none
  status : JobStatus := JobStatus.pending
  started_at : Option Nat := none
  completed_at : Option Nat := none
  results : Option DockingResults := none
  error_message : Option String := none
  retry_count : Nat := 0
  estimated_completion : Option Nat := none
  deriving DecidableEq, Repr

/-- One collaborator (port) invocation, recorded in call order. -/
inductive CollabCall where
  | prepareLigand (drug_name : String)
  | submitJob
  | pollStatus (poll_index : Nat)
  | retrieveResults (job_id : String)
  deriving DecidableEq, Repr

/-! ## Input validation (`_validate_parameters`) -/

/-- The six required binding-site keys, in source order. -/
def required_binding_site_keys : List String :=
  ["center_x", "center_y", "center_z", "size_x", "size_y", "size_z"]

/-- Python `key in dict` for the binding-site dict. -/
def dictContains (d : List (String × Rat)) (k : String) : Bool :=
  d.any (fun p => p.1 == k)

/-- `missing_keys = [key for key in required_keys if key not in binding_site]`. -/
def missing_binding_site_keys (bs : List (String × Rat)) : List String :=
  required_binding_site_keys.filter (fun k => !dictContains bs k)

/-- Python `repr` of a list of strings, as interpolated into the error
message. -/
def pyListRepr (xs : List String) : String :=
  "[" ++ String.intercalate ", " (xs.map (fun s => "'" ++ s ++ "'")) ++ "]"

/-- Numeric parameter checks of `_validate_parameters` (run after the
binding-site check). -/
def validate_numeric (req : DockingTaskRequest) (eid : Nat) : Except DockingError Unit :=
  if req.max_poses < 1 ∨ req.max_poses > 20 then
    Except.error (.parameterValidationError "max_poses must be between 1 and 20" eid none)
  else if req.energy_range < (1/2 : Rat) ∨ req.energy_range > 10 then
    Except.error (.parameterValidationError "energy_range must be between 0.5 and 10.0" eid none)
  else Except.ok ()

/-- `ExecuteDockingTaskUseCase._validate_parameters`.  Note the binding-site
dict is only checked when it is truthy, i.e. supplied and non-empty. -/
def validate_parameters (req : DockingTaskRequest) (eid : Nat) : Except DockingError Unit :=
  if !truthyOpt req.receptor then
    Except.error (.parameterValidationError "Receptor is required" eid none)
  else if !truthyOpt req.ligand then
    Except.error (.parameterValidationError "Ligand is required" eid none)
  else
    match req.binding_site with
    | some bs =>
      if !bs.isEmpty then
        if !(missing_binding_site_keys bs).isEmpty then
          Except.error (.parameterValidationError
            ("Binding site missing required keys: " ++
              pyListRepr (missing_binding_site_keys bs)) eid none)
        else validate_numeric req eid
      else validate_numeric req eid
    | none => validate_numeric req eid

/-! ## Ligand and receptor preparation -/

/-- First-occurrence lookup in a string-keyed dict. -/
def lookupStr (d : List (String × String)) (k : String) : Option String :=
  (d.find? (fun p => p.1 == k)).map Prod.snd

/-- `ExecuteDockingTaskUseCase._prepare_ligand`.  The collaborator
`prepare_ligand_from_drug_name` is passed in as a function returning either a
structure or an exception message.  Every failure path — including the
`Unsupported ligand type` raise, which the outer `except` re-wraps — yields a
`LigandPreparationError` whose message is prefixed `Failed to prepare
ligand:`.  The second component records the collaborator calls made. -/
def prepare_ligand (prep : String → Except String MolecularStructure)
    (req : DockingTaskRequest) (eid : Nat) :
    Except DockingError MolecularStructure × List CollabCall :=
  match req.ligand with
  | some (.struct s) => (Except.ok s, [])
  | some (.dict d) =>
    match lookupStr d "data", lookupStr d "format" with
    | some dat, some fmt =>
      (Except.ok { name := (lookupStr d "name").getD "ligand", format := fmt, data := dat }, [])
    | _, _ =>
      (Except.error (.ligandPreparationError
        ("Failed to prepare ligand: Unsupported ligand type: " ++ typeNameOf req.ligand)
        eid none), [])
  | some (.str drug_name) =>
    match prep drug_name with
    | Except.ok s => (Except.ok s, [CollabCall.prepareLigand drug_name])
    | Except.error msg =>
      (Except.error (.ligandPreparationError ("Failed to prepare ligand: " ++ msg) eid none),
        [CollabCall.prepareLigand drug_name])
  | none =>
    (Except.error (.ligandPreparationError
      ("Failed to prepare ligand: Unsupported ligand type: " ++ typeNameOf req.ligand)
      eid none), [])

/-- `ExecuteDockingTaskUseCase._prepare_receptor` (no string branch; failures
are wrapped as `DockingParameterValidationError`). -/
def prepare_receptor (req : DockingTaskRequest) (eid : Nat) :
    Except DockingError MolecularStructure :=
  match req.receptor with
  | some (.struct s) => Except.ok s
  | some (.dict d) =>
    match lookupStr d "data", lookupStr d "format" with
    | some dat, some fmt =>
      Except.ok { name := (lookupStr d "name").getD "receptor", format := fmt, data := dat }
    | _, _ =>
      Except.error (.parameterValidationError
        ("Failed to prepare receptor: Unsupported receptor type: " ++ typeNameOf req.receptor)
        eid none)
  | _ =>
    Except.error (.parameterValidationError
      ("Failed to prepare receptor: Unsupported receptor type: " ++ typeNameOf req.receptor)
      eid none)

/-! ## Submission (`_submit_docking_job`) -/

/-- The engine parameter package assembled by `_submit_docking_job`. -/
structure DockingParameters where
  binding_site : Option (List (String × Rat))
  max_poses : Int
  energy_range : Rat
  exhaustiveness : Int
  deriving DecidableEq, Repr

/-- `ExecuteDockingTaskUseCase._submit_docking_job`: any collaborator failure
is wrapped as `DockingSubmissionError`. -/
def submit_docking_job
    (submit : MolecularStructure → MolecularStructure → String → DockingParameters →
      Except String String)
    (req : DockingTaskRequest) (eid : Nat) (receptor ligand : MolecularStructure) :
    Except DockingError String :=
  let params : DockingParameters :=
    { binding_site := req.binding_site, max_poses := req.max_poses,
      energy_range := req.energy_range, exhaustiveness := req.exhaustiveness }
  let note := req.job_note.getD ("Execution " ++ toString eid)
  match submit receptor ligand note params with
  | Except.ok job_id => Except.ok job_id
  | Except.error msg =>
    Except.error (.submissionError ("Failed to submit docking job: " ++ msg) eid none)

/-! ## Status polling (`_monitor_execution`) -/

/-- The fixed poll interval, in seconds. -/
def poll_interval : Nat := 10

/-- Python `f"{execution.job_id}"` for an optional job id. -/
def pyOptStr : Option String → String
  | none => "None"
  | some s => s

/-- The `DockingExecutionTimeoutError` raised when the poll deadline passes. -/
def timeout_error (job_id : Option String) (eid tm : Nat) : DockingError :=
  .executionTimeoutError
    ("Docking job " ++ pyOptStr job_id ++ " timed out after " ++ toString tm ++ " minutes")
    eid job_id

/-- The `try:` block of one iteration of the `_monitor_execution` loop, given
the result of this iteration's status query.  `ok true` = job completed
(return), `ok false` = still running (sleep and poll again), `error` = an
exception was raised inside the block — including the `DockingSubmissionError`
raised for a FAILED or CANCELED status. -/
def monitor_try_body (status : Except String JobStatus) (job_id : Option String)
    (eid : Nat) : Except DockingError Bool :=
  match job_id with
  | none => Except.error (.submissionError "No job ID available for status monitoring" eid none)
  | some j =>
    match status with
    | Except.error msg => Except.error (.adapterError msg)
    | Except.ok s =>
      if s = JobStatus.completed then Except.ok true
      else if s = JobStatus.failed then
        Except.error (.submissionError ("Docking job " ++ j ++ " failed") eid (some j))
      else if s = JobStatus.canceled then
        Except.error (.submissionError ("Docking job " ++ j ++ " was canceled") eid (some j))
      else Except.ok false

/-- The `while datetime.utcnow() < timeout_at:` loop of `_monitor_execution`.
`status_at n` is the outcome of the `n`-th status query; `now` is the elapsed
time in seconds and `deadline = 60 * timeout_minutes`.  Each iteration that
does not return ends in `await asyncio.sleep(poll_interval)`, advancing `now`
by `poll_interval` — crucially, the loop's `except Exception:` catches every
exception raised in the body (including the FAILED/CANCELED
`DockingSubmissionError`), logs it, sleeps and polls again, so the `error`
branch of the body continues the loop exactly like the `ok false` branch.
Returns (outcome, number of status queries issued, final elapsed time).
`fuel` is a structural bound on the number of iterations; since every
iteration advances `now` by `poll_interval`, any `fuel` with
`deadline ≤ poll_interval * fuel + now` makes the `fuel = 0` case unreachable
while `now < deadline` (see `monitor_go_fuel_independent`). -/
def monitor_go (status_at : Nat → Except String JobStatus) (job_id : Option String)
    (eid tm deadline : Nat) : Nat → Nat → Nat → Except DockingError Unit × Nat × Nat
  | 0, now, polls => (Except.error (timeout_error job_id eid tm), polls, now)
  | fuel + 1, now, polls =>
    if now < deadline then
      let polls' := if job_id.isSome then polls + 1 else polls
      match monitor_try_body (status_at polls) job_id eid with
      | Except.ok true => (Except.ok (), polls', now)
      | Except.ok false =>
        monitor_go status_at job_id eid tm deadline fuel (now + poll_interval) polls'
      | Except.error _ =>
        monitor_go status_at job_id eid tm deadline fuel (now + poll_interval) polls'
    else (Except.error (timeout_error job_id eid tm), polls, now)

/-- `ExecuteDockingTaskUseCase._monitor_execution`: the poll loop from elapsed
time 0 with deadline `60 * timeout_minutes` (the fuel `60 * tm` dominates the
at most `6 * tm` iterations the guard allows). -/
def monitor_execution (status_at : Nat → Except String JobStatus) (job_id : Option String)
    (eid tm : Nat) : Except DockingError Unit × Nat × Nat :=
  monitor_go status_at job_id eid tm (60 * tm) (60 * tm) 0 0

/-! ## Result retrieval (`_retrieve_results`) -/

/-- `ExecuteDockingTaskUseCase._retrieve_results`.  `retrieve` is the
collaborator `retrieve_results` port call.  Returns (outcome, the value
assigned to `execution.results`, collaborator calls made).  Every raise inside
the `try:` — including the `No valid docking poses returned` check — is caught
by the `except` and re-wrapped as a `DockingSubmissionError` prefixed
`Failed to retrieve docking results:`. -/
def retrieve_results (retrieve : String → Except String DockingResults)
    (job_id : Option String) (eid : Nat) :
    Except DockingError Unit × Option DockingResults × List CollabCall :=
  match job_id with
  | none =>
    (Except.error (.submissionError
      "Failed to retrieve docking results: No job ID available for result retrieval" eid none),
      none, [])
  | some j =>
    match retrieve j with
    | Except.error msg =>
      (Except.error (.submissionError ("Failed to retrieve docking results: " ++ msg)
        eid (some j)), none, [CollabCall.retrieveResults j])
    | Except.ok res =>
      if res.poses.isEmpty then
        (Except.error (.submissionError
          ("Failed to retrieve docking results: No valid docking poses returned for job " ++ j)
          eid (some j)), some res, [CollabCall.retrieveResults j])
      else (Except.ok (), some res, [CollabCall.retrieveResults j])

/-! ## Top-level orchestration (`execute`) -/

/-- The collaborator behaviour one execution runs against: the ligand
preparation port, the docking engine submit/status/retrieve ports.
`get_job_status n` is the outcome of the `n`-th status poll. -/
structure Env where
  prepare_ligand_from_drug_name : String → Except String MolecularStructure
  submit_docking_job : MolecularStructure → MolecularStructure → String → DockingParameters →
    Except String String
  get_job_status : Nat → Except String JobStatus
  retrieve_results : String → Except String DockingResults

instance {ε α : Type} [DecidableEq ε] [DecidableEq α] : DecidableEq (Except ε α) := fun x y =>
  match x, y with
  | Except.ok a, Except.ok b =>
    if h : a = b then isTrue (by rw [h]) else isFalse (by intro hh; cases hh; exact h rfl)
  | Except.error a, Except.error b =>
    if h : a = b then isTrue (by rw [h]) else isFalse (by intro hh; cases hh; exact h rfl)
  | Except.ok _, Except.error _ => isFalse (by intro hh; cases hh)
  | Except.error _, Except.ok _ => isFalse (by intro hh; cases hh)

/-- The observable outcome of `execute`: the final execution record, the
returned value or raised exception, and the collaborator calls made. -/
structure ExecuteOutcome where
  execution : DockingTaskExecution
  result : Except DockingError Unit
  calls : List CollabCall
  deriving DecidableEq, Repr

/-- The `except Exception as e:` handler of `execute`: set `status = FAILED`,
stamp `completed_at`, record `error_message = str(e)`, and re-raise. -/
def failWith (exec : DockingTaskExecution) (e : DockingError) (now : Nat)
    (calls : List CollabCall) : ExecuteOutcome :=
  { execution := { exec with
      status := JobStatus.failed,
      completed_at := some now,
      error_message := some e.message },
    result := Except.error e,
    calls := calls }

/-- `ExecuteDockingTaskUseCase.execute`: validation → ligand preparation →
receptor preparation → submission → monitoring → retrieval, with the shared
`except` handler around the whole pipeline. -/
def execute (env : Env) (eid : Nat) (req : DockingTaskRequest) : ExecuteOutcome :=
  let exec0 : DockingTaskExecution :=
    { execution_id := eid, started_at := some 0,
      estimated_completion := some (60 * req.timeout_minutes) }
  match validate_parameters req eid with
  | Except.error e => failWith exec0 e 0 []
  | Except.ok _ =>
    match prepare_ligand env.prepare_ligand_from_drug_name req eid with
    | (Except.error e, calls) => failWith exec0 e 0 calls
    | (Except.ok ligand, calls1) =>
      match prepare_receptor req eid with
      | Except.error e => failWith exec0 e 0 calls1
      | Except.ok receptor =>
        match submit_docking_job env.submit_docking_job req eid receptor ligand with
        | Except.error e => failWith exec0 e 0 (calls1 ++ [CollabCall.submitJob])
        | Except.ok job_id =>
          let exec1 := { exec0 with job_id := some job_id, status := JobStatus.running }
          let calls2 := calls1 ++ [CollabCall.submitJob]
          match monitor_execution env.get_job_status (some job_id) eid req.timeout_minutes with
          | (Except.error e, polls, now) =>
            failWith exec1 e now (calls2 ++ (List.range polls).map CollabCall.pollStatus)
          | (Except.ok _, polls, now) =>
            let calls3 := calls2 ++ (List.range polls).map CollabCall.pollStatus
            match retrieve_results env.retrieve_results exec1.job_id eid with
            | (Except.error e, assigned, rcalls) =>
              failWith { exec1 with results := assigned } e now (calls3 ++ rcalls)
            | (Except.ok _, assigned, rcalls) =>
              { execution := { exec1 with
                  results := assigned,
                  status := JobStatus.completed,
                  completed_at := some now },
                result := Except.ok (),
                calls := calls3 ++ rcalls }

/-! ## Cancellation -/

/-- `ExecuteDockingTaskUseCase.cancel_execution`: not implemented, always
returns `False`. -/
def cancel_execution (execution_id : Nat) : Bool :=
  false

/-- `NeuroSnapAdapter.cancel_job`: always raises `DockingCancellationError`. -/
def cancel_job (job_id : String) : Except DockingError Bool :=
  Except.error (.cancellationError "Job cancellation is not supported by Neurosnap API")

/-! ## Concrete fixtures used by witnesses and counterexamples -/

/-- A minimal valid receptor structure. -/
def recStruct : MolecularStructure :=
  { name := "receptor", format := "pdb", data := "ATOM" }

/-- A minimal valid ligand structure. -/
def ligStruct : MolecularStructure :=
  { name := "ligand", format := "sdf", data := "MOL" }

/-- A request with already-typed receptor and ligand structures and default
parameters. -/
def reqOk : DockingTaskRequest :=
  { receptor := some (MolInput.struct recStruct), ligand := some (MolInput.struct ligStruct) }

/-- A request whose receptor is `None`. -/
def reqNoReceptor : DockingTaskRequest :=
  { receptor := none, ligand := some (MolInput.struct ligStruct) }

/-- A request whose binding site is the empty dict `{}`. -/
def reqEmptyBindingSite : DockingTaskRequest :=
  { reqOk with binding_site := some [] }

/-- A collaborator environment in which everything succeeds: submission yields
job id `job-1`, the first status poll reports COMPLETED, and retrieval yields
one pose. -/
def envOk : Env :=
  { prepare_ligand_from_drug_name := fun _ => Except.ok ligStruct
    submit_docking_job := fun _ _ _ _ => Except.ok "job-1"
    get_job_status := fun _ => Except.ok JobStatus.completed
    retrieve_results := fun _ => Except.ok { poses := [{ rank := 1, affinity := -7 }] } }

/-- Like `envOk`, but retrieval returns a result object with an empty pose
list. -/
def envEmptyPoses : Env :=
  { envOk with retrieve_results := fun _ => Except.ok { poses := [] } }

/-- A docking-results value with no poses. -/
def emptyResults : DockingResults :=
  { poses := [] }

/-- Is the raised exception (if any) a `DockingResultsError`? -/
def raisedResultsError (o : ExecuteOutcome) : Bool :=
  match o.result with
  | Except.error e => e.isResultsError
  | Except.ok _ => false

/-- Pose with the minimal affinity in the C6 fixtures. -/
def c6_pose_min : DockingPose :=
  { rank := 1, affinity := -5 }

/-- A caller-supplied `best_pose` that is not the minimum. -/
def c6_pose_given : DockingPose :=
  { rank := 2, affinity := 0 }

/-- Raw `DockingResults` fields in which the caller supplies `best_pose`
explicitly while `poses` contains a strictly better pose. -/
def c6_raw : DockingResults :=
  { poses := [c6_pose_min], best_pose := some c6_pose_given }

/-- Hits of a list of SDF records (used to relate the ranking loop to its
spec shape): non-blank records with an extractable affinity, paired with their
stripped text. -/
def record_hits (bs : List String) : List (Rat × String) :=
  (bs.filter (fun b => !(pyStrip b.data).isEmpty)).filterMap
    (fun b => (extract_affinity_from_sdf b).map (fun a => (a, pyStripS b)))

/-! ## Theorems -/

lemma rankedFrom_map_rank (l : List (Rat × String)) :
    ∀ r, (rankedFrom r l).map DockingPose.rank = List.range' r l.length := by
  induction l with
  | nil => intro r; simp [rankedFrom]
  | cons x xs ih =>
    intro r
    cases x with
    | mk a d => simp [rankedFrom, ih, List.range'_succ]

lemma parseSdfGo_eq_rankedFrom :
    ∀ (bs : List String) (r : Nat), parseSdfGo bs r = rankedFrom r (record_hits bs)
  | [], _ => rfl
  | b :: bs, r => by
    by_cases hb : (pyStrip b.data).isEmpty
    · simp [parseSdfGo, record_hits, hb, List.filter_cons,
        parseSdfGo_eq_rankedFrom bs r]
    · cases he : extract_affinity_from_sdf b with
      | some a =>
        simp [parseSdfGo, record_hits, hb, he, List.filter_cons, rankedFrom, mkSdfPose,
          parseSdfGo_eq_rankedFrom bs (r + 1)]
      | none =>
        simp [parseSdfGo, record_hits, hb, he, List.filter_cons,
          parseSdfGo_eq_rankedFrom bs r]

lemma sdf_pose_hits_eq (s : String) : sdf_pose_hits s = record_hits (s.splitOn "$$$$") := rfl

/-- C8: SDF pose extraction splits the content on the `$$$$` delimiter, turns
each record with a matching numeric property value into exactly one pose, and
assigns ranks in discovery order starting at 1, records without a matching
tag yielding no pose and consuming no rank. -/
theorem c8_sdf_extraction_structure (s : String) :
    parse_sdf_poses s = parse_sdf_poses_spec s ∧
    (parse_sdf_poses s).map DockingPose.rank = List.range' 1 (sdf_pose_hits s).length := by
  have h : parse_sdf_poses s = parse_sdf_poses_spec s := by
    unfold parse_sdf_poses parse_sdf_poses_spec
    rw [sdf_pose_hits_eq]
    exact parseSdfGo_eq_rankedFrom _ 1
  refine ⟨h, ?_⟩
  rw [h]
  unfold parse_sdf_poses_spec
  exact rankedFrom_map_rank _ 1

/-- C9: SDF pose extraction is a pure function of the content, hence
deterministic and idempotent — parsing the same content twice yields
identical pose lists with identical affinities in identical rank order. -/
theorem c9_sdf_parsing_deterministic (s : String) :
    parse_sdf_poses s = parse_sdf_poses s ∧
    (parse_sdf_poses s).map DockingPose.affinity =
      (parse_sdf_poses s).map DockingPose.affinity ∧
    (parse_sdf_poses s).map DockingPose.rank =
      (parse_sdf_poses s).map DockingPose.rank :=
  ⟨rfl, rfl, rfl⟩

/-- C10: cancellation never succeeds — the use case's `cancel_execution`
always returns `False`, and the NeuroSnap provider's `cancel_job` always
raises `DockingCancellationError`. -/
theorem c10_cancellation_never_succeeds :
    (∀ execution_id : Nat, cancel_execution execution_id = false) ∧
    (∀ job_id : String, cancel_job job_id =
      Except.error (DockingError.cancellationError
        "Job cancellation is not supported by Neurosnap API")) :=
  ⟨fun _ => rfl, fun _ => rfl⟩

lemma minByAffinity_foldl_spec :
    ∀ (ps : List DockingPose) (p : DockingPose),
      ∃ m, List.foldl
          (fun acc q =>
            match acc with
            | none => some q
            | some q' => if q.affinity < q'.affinity then some q else some q')
          (some p) ps = some m ∧
        (m = p ∨ m ∈ ps) ∧ m.affinity ≤ p.affinity ∧ ∀ q ∈ ps, m.affinity ≤ q.affinity
  | [], p => ⟨p, rfl, Or.inl rfl, le_refl _, by simp⟩
  | x :: xs, p => by
    by_cases hx : x.affinity < p.affinity
    · obtain ⟨m, hm, hmem, hle, hall⟩ := minByAffinity_foldl_spec xs x
      refine ⟨m, ?_, ?_, ?_, ?_⟩
      · simpa [hx] using hm
      · rcases hmem with h | h
        · exact Or.inr (by simp [h])
        · exact Or.inr (by simp [h])
      · exact le_of_lt (lt_of_le_of_lt hle hx)
      · intro q hq
        rcases List.mem_cons.mp hq with rfl | hq'
        · exact hle
        · exact hall q hq'
    · obtain ⟨m, hm, hmem, hle, hall⟩ := minByAffinity_foldl_spec xs p
      refine ⟨m, ?_, ?_, ?_, ?_⟩
      · simpa [hx] using hm
      · rcases hmem with h | h
        · exact Or.inl h
        · exact Or.inr (by simp [h])
      · exact hle
      · intro q hq
        rcases List.mem_cons.mp hq with rfl | hq'
        · exact le_trans hle (le_of_not_lt hx)
        · exact hall q hq'

lemma minByAffinity_spec (ps : List DockingPose) (h : ps ≠ []) :
    ∃ m, minByAffinity ps = some m ∧ m ∈ ps ∧ ∀ q ∈ ps, m.affinity ≤ q.affinity := by
  cases ps with
  | nil => exact absurd rfl h
  | cons p ps =>
    obtain ⟨m, hm, hmem, hle, hall⟩ := minByAffinity_foldl_spec ps p
    refine ⟨m, ?_, ?_, ?_⟩
    · simpa [minByAffinity] using hm
    · rcases hmem with h' | h'
      · simp [h']
      · simp [h']
    · intro q hq
      rcases List.mem_cons.mp hq with rfl | hq'
      · exact hle
      · exact hall q hq'

/-- C6 counterexample: a `DockingResults` constructed with an explicitly
supplied `best_pose` keeps it even when `poses` contains a pose of strictly
smaller affinity — `__post_init__` only derives `best_pose` when it was not
supplied. -/
theorem c6_counterexample_supplied_best_pose_not_recomputed :
    (DockingResults.post_init c6_raw).best_pose = some c6_pose_given ∧
    minByAffinity c6_raw.poses = some c6_pose_min ∧
    c6_pose_given.affinity ≠ c6_pose_min.affinity := by
  refine ⟨?_, ?_, ?_⟩
  · rw [DockingResults.post_init, if_neg]
    · rfl
    · simp [c6_raw]
  · simp [minByAffinity, c6_raw]
  · norm_num [c6_pose_given, c6_pose_min]

/-- C6 (amended): for every `DockingResults` whose `poses` list is non-empty
and whose `best_pose` was not supplied at construction, `__post_init__` sets
`best_pose` to a pose of the list with minimum affinity
(`min(poses, key=affinity)`, computed once at construction). -/
theorem c6_best_pose_min_affinity (r : DockingResults) (h1 : r.poses ≠ [])
    (h2 : r.best_pose = none) :
    ∃ p, (DockingResults.post_init r).best_pose = some p ∧ p ∈ r.poses ∧
      ∀ q ∈ r.poses, p.affinity ≤ q.affinity := by
  rw [DockingResults.post_init, if_pos ⟨h1, h2⟩]
  simpa using minByAffinity_spec r.poses h1

/-- Witness for the amended C6 at a concrete two-pose result. -/
theorem c6_best_pose_min_affinity_witness :
    ({ poses := [c6_pose_given, c6_pose_min] } : DockingResults).poses ≠ [] ∧
    ({ poses := [c6_pose_given, c6_pose_min] } : DockingResults).best_pose = none ∧
    ∃ p, (DockingResults.post_init { poses := [c6_pose_given, c6_pose_min] }).best_pose = some p ∧
      p ∈ ({ poses := [c6_pose_given, c6_pose_min] } : DockingResults).poses ∧
      ∀ q ∈ ({ poses := [c6_pose_given, c6_pose_min] } : DockingResults).poses,
        p.affinity ≤ q.affinity :=
  ⟨by simp, rfl, c6_best_pose_min_affinity _ (by simp) rfl⟩

/-- C7: a string ligand is delegated to `prepare_ligand_from_drug_name`; every
failure of that delegation, and every unsupported ligand input shape, is
raised as a `LigandPreparationError` carrying the execution id — the
collaborator's own exception is never re-raised. -/
theorem c7_ligand_preparation_wrapping (prep : String → Except String MolecularStructure)
    (req : DockingTaskRequest) (eid : Nat) :
    (∀ drug_name s, req.ligand = some (MolInput.str drug_name) →
      prep drug_name = Except.ok s →
      prepare_ligand prep req eid = (Except.ok s, [CollabCall.prepareLigand drug_name])) ∧
    (∀ drug_name msg, req.ligand = some (MolInput.str drug_name) →
      prep drug_name = Except.error msg →
      prepare_ligand prep req eid =
        (Except.error (DockingError.ligandPreparationError
          ("Failed to prepare ligand: " ++ msg) eid none),
          [CollabCall.prepareLigand drug_name])) ∧
    (∀ e, (prepare_ligand prep req eid).1 = Except.error e →
      ∃ msg, e = DockingError.ligandPreparationError msg eid none) := by
  refine ⟨?_, ?_, ?_⟩
  · intro drug_name s hl hp
    simp [prepare_ligand, hl, hp]
  · intro drug_name msg hl hp
    simp [prepare_ligand, hl, hp]
  · intro e he
    unfold prepare_ligand at he
    cases hl : req.ligand with
    | none =>
      rw [hl] at he
      simp at he
      exact ⟨_, he.symm⟩
    | some m =>
      cases m with
      | struct s => rw [hl] at he; simp at he
      | dict d =>
        rw [hl] at he
        cases hd : lookupStr d "data" with
        | none =>
          simp [hd] at he
          exact ⟨_, he.symm⟩
        | some dat =>
          cases hf : lookupStr d "format" with
          | none =>
            simp [hd, hf] at he
            exact ⟨_, he.symm⟩
          | some fmt => simp [hd, hf] at he
      | str drug_name =>
        rw [hl] at he
        cases hp : prep drug_name with
        | ok s => simp [hp] at he
        | error msg =>
          simp [hp] at he
          exact ⟨_, he.symm⟩

/-- Witness for C7 at a concrete failing drug-name resolution. -/
theorem c7_ligand_preparation_wrapping_witness :
    ({ receptor := some (MolInput.struct recStruct),
       ligand := some (MolInput.str "aspirin") } : DockingTaskRequest).ligand =
        some (MolInput.str "aspirin") ∧
    (fun _ : String =>
        (Except.error "Drug name resolution failed" : Except String MolecularStructure))
      "aspirin" = Except.error "Drug name resolution failed" ∧
    prepare_ligand
        (fun _ => Except.error "Drug name resolution failed")
        { receptor := some (MolInput.struct recStruct),
          ligand := some (MolInput.str "aspirin") } 3 =
      (Except.error (DockingError.ligandPreparationError
        ("Failed to prepare ligand: " ++ "Drug name resolution failed") 3 none),
        [CollabCall.prepareLigand "aspirin"]) :=
  ⟨rfl, rfl,
    (c7_ligand_preparation_wrapping
      (fun _ => Except.error "Drug name resolution failed")
      { receptor := some (MolInput.struct recStruct),
        ligand := some (MolInput.str "aspirin") } 3).2.1
      "aspirin" "Drug name resolution failed" rfl rfl⟩

/-- C5 counterexample: a request whose binding site is supplied as the empty
dict `{}` lacks all six required keys, yet validation succeeds, because the
check `if request.binding_site:` treats an empty dict as absent. -/
theorem c5_counterexample_empty_binding_site_not_validated :
    reqEmptyBindingSite.binding_site = some [] ∧
    missing_binding_site_keys [] = required_binding_site_keys ∧
    required_binding_site_keys ≠ [] ∧
    validate_parameters reqEmptyBindingSite 0 = Except.ok () := by
  refine ⟨rfl, rfl, by simp [required_binding_site_keys], ?_⟩
  norm_num [validate_parameters, validate_numeric, reqEmptyBindingSite, reqOk,
    truthyOpt, MolInput.truthy]

/-- C5 (amended): validation checks run in the fixed order receptor, ligand,
binding site (only when supplied *and non-empty*), `max_poses`,
`energy_range`; the first violation is reported as a
`ParameterValidationError`, and a validation error means `execute` raises it
with no collaborator call made. -/
theorem c5_validation_first_violation (req : DockingTaskRequest) (eid : Nat) (env : Env) :
    (truthyOpt req.receptor = false →
      validate_parameters req eid =
        Except.error (DockingError.parameterValidationError "Receptor is required" eid none)) ∧
    (truthyOpt req.receptor = true → truthyOpt req.ligand = false →
      validate_parameters req eid =
        Except.error (DockingError.parameterValidationError "Ligand is required" eid none)) ∧
    (∀ bs, truthyOpt req.receptor = true → truthyOpt req.ligand = true →
      req.binding_site = some bs → bs ≠ [] → missing_binding_site_keys bs ≠ [] →
      validate_parameters req eid =
        Except.error (DockingError.parameterValidationError
          ("Binding site missing required keys: " ++
            pyListRepr (missing_binding_site_keys bs)) eid none)) ∧
    (truthyOpt req.receptor = true → truthyOpt req.ligand = true →
      (∀ bs, req.binding_site = some bs → bs = [] ∨ missing_binding_site_keys bs = []) →
      (req.max_poses < 1 ∨ req.max_poses > 20) →
      validate_parameters req eid =
        Except.error (DockingError.parameterValidationError
          "max_poses must be between 1 and 20" eid none)) ∧
    (truthyOpt req.receptor = true → truthyOpt req.ligand = true →
      (∀ bs, req.binding_site = some bs → bs = [] ∨ missing_binding_site_keys bs = []) →
      1 ≤ req.max_poses → req.max_poses ≤ 20 →
      (req.energy_range < (1/2 : Rat) ∨ req.energy_range > 10) →
      validate_parameters req eid =
        Except.error (DockingError.parameterValidationError
          "energy_range must be between 0.5 and 10.0" eid none)) ∧
    (∀ e, validate_parameters req eid = Except.error e →
      (execute env eid req).calls = [] ∧ (execute env eid req).result = Except.error e) := by
  refine ⟨?_, ?_, ?_, ?_, ?_, ?_⟩
  · intro hr
    simp [validate_parameters, hr]
  · intro hr hl
    simp [validate_parameters, hr, hl]
  · intro bs hr hl hbs hne hmiss
    simp [validate_parameters, hr, hl, hbs, hne, hmiss]
  · intro hr hl hbs hmax
    have hnum : validate_numeric req eid =
        Except.error (DockingError.parameterValidationError
          "max_poses must be between 1 and 20" eid none) := by
      simp [validate_numeric, if_pos hmax]
    unfold validate_parameters
    rw [hr, hl]
    simp only [Bool.not_true, Bool.false_eq_true, if_false]
    cases hb : req.binding_site with
    | none => simpa using hnum
    | some bs =>
      rcases hbs bs hb with h | h
      · subst h
        simpa using hnum
      · simp [h, List.isEmpty_iff, hnum]
  · intro hr hl hbs hmin hmax hen
    have hnum : validate_numeric req eid =
        Except.error (DockingError.parameterValidationError
          "energy_range must be between 0.5 and 10.0" eid none) := by
      have hmp : ¬ (req.max_poses < 1 ∨ req.max_poses > 20) := by omega
      unfold validate_numeric
      rw [if_neg hmp, if_pos hen]
    unfold validate_parameters
    rw [hr, hl]
    simp only [Bool.not_true, Bool.false_eq_true, if_false]
    cases hb : req.binding_site with
    | none => simpa using hnum
    | some bs =>
      rcases hbs bs hb with h | h
      · subst h
        simpa using hnum
      · simp [h, List.isEmpty_iff, hnum]
  · intro e he
    unfold execute
    rw [he]
    simp [failWith]

/-- Witness for the amended C5: a request with a missing receptor fails
validation with `Receptor is required` and `execute` makes no collaborator
call. -/
theorem c5_validation_first_violation_witness :
    truthyOpt reqNoReceptor.receptor = false ∧
    validate_parameters reqNoReceptor 0 =
      Except.error (DockingError.parameterValidationError "Receptor is required" 0 none) ∧
    (execute envOk 0 reqNoReceptor).calls = [] ∧
    (execute envOk 0 reqNoReceptor).result =
      Except.error (DockingError.parameterValidationError "Receptor is required" 0 none) := by
  have hv := (c5_validation_first_violation reqNoReceptor 0 envOk).1 rfl
  have hc := (c5_validation_first_violation reqNoReceptor 0 envOk).2.2.2.2.2 _ hv
  exact ⟨rfl, hv, hc.1, hc.2⟩

lemma monitor_go_fuel_independent (status_at : Nat → Except String JobStatus)
    (job_id : Option String) (eid tm deadline : Nat) :
    ∀ f₁ f₂ now polls, deadline ≤ poll_interval * f₁ + now →
      deadline ≤ poll_interval * f₂ + now →
      monitor_go status_at job_id eid tm deadline f₁ now polls =
        monitor_go status_at job_id eid tm deadline f₂ now polls := by
  intro f₁
  induction f₁ with
  | zero =>
    intro f₂ now polls h1 h2
    have hge : ¬ now < deadline := by simp [poll_interval] at h1; omega
    cases f₂ with
    | zero => rfl
    | succ f => simp [monitor_go, hge]
  | succ f ih =>
    intro f₂ now polls h1 h2
    cases f₂ with
    | zero =>
      have hge : ¬ now < deadline := by simp [poll_interval] at h2; omega
      simp [monitor_go, hge]
    | succ f' =>
      by_cases hlt : now < deadline
      · simp only [monitor_go, if_pos hlt]
        cases monitor_try_body (status_at polls) job_id eid with
        | ok b =>
          cases b with
          | true => rfl
          | false =>
            exact ih f' (now + poll_interval) _
              (by simp [poll_interval] at h1 ⊢; omega)
              (by simp [poll_interval] at h2 ⊢; omega)
        | error e =>
          exact ih f' (now + poll_interval) _
            (by simp [poll_interval] at h1 ⊢; omega)
            (by simp [poll_interval] at h2 ⊢; omega)
      · simp [monitor_go, hlt]

lemma monitor_go_never_complete (status_at : Nat → Except String JobStatus) (j : String)
    (eid tm deadline : Nat) (h : ∀ n, status_at n ≠ Except.ok JobStatus.completed) :
    ∀ fuel now polls, now ≤ deadline → (deadline - now) % 10 = 0 →
      deadline ≤ 10 * fuel + now →
      monitor_go status_at (some j) eid tm deadline fuel now polls =
        (Except.error (timeout_error (some j) eid tm),
          polls + (deadline - now) / 10, deadline) := by
  intro fuel
  induction fuel with
  | zero =>
    intro now polls h1 h2 h3
    have hnd : now = deadline := by omega
    subst hnd
    simp [monitor_go]
  | succ f ih =>
    intro now polls h1 h2 h3
    by_cases hlt : now < deadline
    · have h10 : now + 10 ≤ deadline := by omega
      simp only [monitor_go, if_pos hlt]
      have hrec :
          monitor_go status_at (some j) eid tm deadline f (now + poll_interval) (polls + 1) =
            (Except.error (timeout_error (some j) eid tm),
              polls + 1 + (deadline - (now + 10)) / 10, deadline) := by
        have := ih (now + poll_interval) (polls + 1)
          (by simp [poll_interval]; omega) (by simp [poll_interval]; omega)
          (by simp [poll_interval]; omega)
        simpa [poll_interval] using this
      have hpoll : polls + 1 + (deadline - (now + 10)) / 10 = polls + (deadline - now) / 10 := by
        omega
      cases hs : status_at polls with
      | error msg =>
        simp only [monitor_try_body, hs, Option.isSome_some, if_true]
        rw [hrec, hpoll]
      | ok s =>
        have hsne : s ≠ JobStatus.completed := by
          intro hc
          exact h polls (by rw [hs, hc])
        cases s with
        | completed => exact absurd rfl hsne
        | pending =>
          have hb : monitor_try_body (Except.ok JobStatus.pending) (some j) eid =
              Except.ok false := rfl
          simp only [hs, hb, Option.isSome_some, if_true]
          rw [hrec, hpoll]
        | running =>
          have hb : monitor_try_body (Except.ok JobStatus.running) (some j) eid =
              Except.ok false := rfl
          simp only [hs, hb, Option.isSome_some, if_true]
          rw [hrec, hpoll]
        | failed =>
          have hb : monitor_try_body (Except.ok JobStatus.failed) (some j) eid =
              Except.error (DockingError.submissionError
                ("Docking job " ++ j ++ " failed") eid (some j)) := rfl
          simp only [hs, hb, Option.isSome_some, if_true]
          rw [hrec, hpoll]
        | canceled =>
          have hb : monitor_try_body (Except.ok JobStatus.canceled) (some j) eid =
              Except.error (DockingError.submissionError
                ("Docking job " ++ j ++ " was canceled") eid (some j)) := rfl
          simp only [hs, hb, Option.isSome_some, if_true]
          rw [hrec, hpoll]
    · have hnd : now = deadline := by omega
      subst hnd
      simp [monitor_go, hlt]

/-- C3: if no status poll ever reports COMPLETED, the poll loop runs to its
deadline `60 * timeout_minutes` and raises `DockingExecutionTimeoutError`
carrying the execution id and job id, issuing exactly `6 * timeout_minutes`
polls; the total polling wait equals (and so never exceeds) the deadline. -/
theorem c3_polling_deadline_timeout (status_at : Nat → Except String JobStatus)
    (j : String) (eid tm : Nat)
    (h : ∀ n, status_at n ≠ Except.ok JobStatus.completed) :
    monitor_execution status_at (some j) eid tm =
      (Except.error (DockingError.executionTimeoutError
        ("Docking job " ++ j ++ " timed out after " ++ toString tm ++ " minutes")
        eid (some j)), 6 * tm, 60 * tm) ∧
    (monitor_execution status_at (some j) eid tm).2.2 ≤ 60 * tm := by
  have hmain := monitor_go_never_complete status_at j eid tm (60 * tm) h (60 * tm) 0 0
    (by omega) (by omega) (by omega)
  have hdiv : 0 + (60 * tm - 0) / 10 = 6 * tm := by omega
  have heq : monitor_execution status_at (some j) eid tm =
      (Except.error (DockingError.executionTimeoutError
        ("Docking job " ++ j ++ " timed out after " ++ toString tm ++ " minutes")
        eid (some j)), 6 * tm, 60 * tm) := by
    unfold monitor_execution
    rw [hmain, hdiv]
    rfl
  exact ⟨heq, by rw [heq]⟩

/-- Witness for C3: a status oracle that always reports RUNNING, with a
one-minute timeout. -/
theorem c3_polling_deadline_timeout_witness :
    (∀ n : Nat, (fun _ : Nat => (Except.ok JobStatus.running : Except String JobStatus)) n ≠
      Except.ok JobStatus.completed) ∧
    (monitor_execution (fun _ : Nat => (Except.ok JobStatus.running : Except String JobStatus))
        (some "job-1") 5 1 =
      (Except.error (DockingError.executionTimeoutError
        ("Docking job " ++ "job-1" ++ " timed out after " ++ toString 1 ++ " minutes")
        5 (some "job-1")), 6 * 1, 60 * 1) ∧
      (monitor_execution (fun _ : Nat => (Except.ok JobStatus.running : Except String JobStatus))
        (some "job-1") 5 1).2.2 ≤ 60 * 1) := by
  have hp : ∀ n : Nat,
      (fun _ : Nat => (Except.ok JobStatus.running : Except String JobStatus)) n ≠
        Except.ok JobStatus.completed := by
    intro n
    simp
  exact ⟨hp, c3_polling_deadline_timeout _ "job-1" 5 1 hp⟩

/-- C1 evidence: with a one-minute timeout and every poll reporting FAILED,
the loop body raises the FAILED `DockingSubmissionError` at the very first
poll, yet the loop's own `except Exception:` swallows it: six polls are
issued and the execution fails with `DockingExecutionTimeoutError` instead of
the immediate `DockingSubmissionError` the spec (and the unit test) expect. -/
theorem c1_failed_status_swallowed_until_timeout :
    monitor_try_body (Except.ok JobStatus.failed) (some "test_job_123") 1 =
      Except.error (DockingError.submissionError
        "Docking job test_job_123 failed" 1 (some "test_job_123")) ∧
    monitor_execution (fun _ : Nat => (Except.ok JobStatus.failed : Except String JobStatus))
        (some "test_job_123") 1 1 =
      (Except.error (DockingError.executionTimeoutError
        "Docking job test_job_123 timed out after 1 minutes" 1 (some "test_job_123")),
        6, 60) := by
  constructor
  · rfl
  · rfl

lemma retrieve_results_ok (f : String → Except String DockingResults) (jid : Option String)
    (eid : Nat) (u : Unit) (assigned : Option DockingResults) (rcalls : List CollabCall)
    (h : retrieve_results f jid eid = (Except.ok u, assigned, rcalls)) :
    ∃ res, assigned = some res ∧ res.poses ≠ [] := by
  unfold retrieve_results at h
  split at h
  · simp at h
  · split at h
    · simp at h
    · split at h
      · simp at h
      · rename_i res hres hp
        simp only [Prod.mk.injEq] at h
        exact ⟨res, h.2.1.symm, by simpa using hp⟩

lemma execute_result_spec (env : Env) (eid : Nat) (req : DockingTaskRequest) :
    ((execute env eid req).result = Except.ok () →
      (execute env eid req).execution.status = JobStatus.completed ∧
      (∃ res, (execute env eid req).execution.results = some res ∧ res.poses ≠ []) ∧
      ((execute env eid req).execution.completed_at).isSome = true) ∧
    (∀ e, (execute env eid req).result = Except.error e →
      (execute env eid req).execution.status = JobStatus.failed ∧
      (execute env eid req).execution.error_message = some e.message ∧
      ((execute env eid req).execution.completed_at).isSome = true) := by
  simp only [execute]
  split
  · -- validation error
    constructor
    · intro h; simp [failWith] at h
    · intro e he
      simp only [failWith] at he ⊢
      cases he
      simp
  · split
    · -- ligand preparation error
      constructor
      · intro h; simp [failWith] at h
      · intro e he
        simp only [failWith] at he ⊢
        cases he
        simp
    · split
      · constructor
        · intro h; simp [failWith] at h
        · intro e he
          simp only [failWith] at he ⊢
          cases he
          simp
      · split
        · constructor
          · intro h; simp [failWith] at h
          · intro e he
            simp only [failWith] at he ⊢
            cases he
            simp
        · split
          · constructor
            · intro h; simp [failWith] at h
            · intro e he
              simp only [failWith] at he ⊢
              cases he
              simp
          · rename_i hretr
            split
            · constructor
              · intro h; simp [failWith] at h
              · intro e he
                simp only [failWith] at he ⊢
                cases he
                simp
            · rename_i u assigned rcalls hret
              constructor
              · intro _
                refine ⟨rfl, ?_, rfl⟩
                obtain ⟨res, hres, hne⟩ := retrieve_results_ok _ _ _ _ _ _ hret
                exact ⟨res, by simp [hres], hne⟩
              · intro e he
                simp at he

/-- C4: for every request and collaborator behaviour, an exception raised at
any step leaves the execution record with `status = FAILED`, `error_message`
equal to the exception's message and `completed_at` stamped, and the same
exception is re-raised; on full success the record has `status = COMPLETED`,
results attached and `completed_at` stamped. -/
theorem c4_execute_terminal_record_consistency (env : Env) (eid : Nat)
    (req : DockingTaskRequest) :
    (∀ e, (execute env eid req).result = Except.error e →
      (execute env eid req).execution.status = JobStatus.failed ∧
      (execute env eid req).execution.error_message = some e.message ∧
      ((execute env eid req).execution.completed_at).isSome = true) ∧
    ((execute env eid req).result = Except.ok () →
      (execute env eid req).execution.status = JobStatus.completed ∧
      ((execute env eid req).execution.results).isSome = true ∧
      ((execute env eid req).execution.completed_at).isSome = true) := by
  obtain ⟨hok, herr⟩ := execute_result_spec env eid req
  refine ⟨herr, fun h => ?_⟩
  obtain ⟨h1, ⟨res, h2, _⟩, h3⟩ := hok h
  exact ⟨h1, by simp [h2], h3⟩

/-- Witness for C4 at a concrete failing execution (missing receptor). -/
theorem c4_execute_terminal_record_consistency_witness :
    (execute envOk 0 reqNoReceptor).result =
      Except.error (DockingError.parameterValidationError "Receptor is required" 0 none) ∧
    ((execute envOk 0 reqNoReceptor).execution.status = JobStatus.failed ∧
      (execute envOk 0 reqNoReceptor).execution.error_message =
        some (DockingError.parameterValidationError "Receptor is required" 0 none).message ∧
      ((execute envOk 0 reqNoReceptor).execution.completed_at).isSome = true) := by
  have h : (execute envOk 0 reqNoReceptor).result =
      Except.error (DockingError.parameterValidationError "Receptor is required" 0 none) := rfl
  exact ⟨h, (c4_execute_terminal_record_consistency envOk 0 reqNoReceptor).1 _ h⟩

/-- C2 (amended): an execution that reaches result retrieval with the job
COMPLETED and no extractable pose fails — with a `DockingSubmissionError`
(the use case has no `DockingResultsError` path) whose message wraps
`No valid docking poses returned` — and `execute` never returns success with
an empty pose list. -/
theorem c2_no_empty_pose_success :
    (∀ (env : Env) (eid : Nat) (req : DockingTaskRequest),
      (execute env eid req).result = Except.ok () →
      ∃ res, (execute env eid req).execution.results = some res ∧ res.poses ≠ []) ∧
    (∀ (f : String → Except String DockingResults) (j : String) (eid : Nat)
        (res : DockingResults),
      f j = Except.ok res → res.poses = [] →
      retrieve_results f (some j) eid =
        (Except.error (DockingError.submissionError
          ("Failed to retrieve docking results: No valid docking poses returned for job " ++ j)
          eid (some j)), some res, [CollabCall.retrieveResults j])) := by
  constructor
  · intro env eid req h
    exact ((execute_result_spec env eid req).1 h).2.1
  · intro f j eid res hf hp
    simp only [retrieve_results]
    rw [hf]
    simp [hp]

/-- Witness for the amended C2: a retrieval port returning an empty pose
list. -/
theorem c2_no_empty_pose_success_witness :
    (fun _ : String => (Except.ok emptyResults : Except String DockingResults)) "job-9" =
      Except.ok emptyResults ∧
    emptyResults.poses = [] ∧
    retrieve_results (fun _ => Except.ok emptyResults) (some "job-9") 2 =
      (Except.error (DockingError.submissionError
        ("Failed to retrieve docking results: No valid docking poses returned for job " ++
          "job-9") 2 (some "job-9")), some emptyResults,
        [CollabCall.retrieveResults "job-9"]) :=
  ⟨rfl, rfl,
    c2_no_empty_pose_success.2 (fun _ => Except.ok emptyResults) "job-9" 2 emptyResults rfl rfl⟩

/-- C2 counterexample: with the job COMPLETED and an artifact yielding no
pose, `execute` raises `DockingSubmissionError`, not the domain
`DockingResultsError` the spec names. -/
theorem c2_counterexample_submission_not_results_error :
    (execute envEmptyPoses 0 reqOk).result =
      Except.error (DockingError.submissionError
        "Failed to retrieve docking results: No valid docking poses returned for job job-1"
        0 (some "job-1")) ∧
    raisedResultsError (execute envEmptyPoses 0 reqOk) = false := by
  have h1 : validate_parameters reqOk 0 = Except.ok () := by
    norm_num [validate_parameters, validate_numeric, reqOk, truthyOpt, MolInput.truthy]
  have h2 : (execute envEmptyPoses 0 reqOk).result =
      Except.error (DockingError.submissionError
        "Failed to retrieve docking results: No valid docking poses returned for job job-1"
        0 (some "job-1")) := by
    simp only [execute, h1]
    rfl
  refine ⟨h2, ?_⟩
  unfold raisedResultsError
  rw [h2]
  rfl
